import Mathlib

/-
Shallow embedding of the plane-tracker display driver
(display/__init__.py, scenes/clock.py, config.py) and proofs of the
behavioural claims about it.

Conventions of the embedding:
* wall-clock instants from time.time() / datetime.utcnow() are modelled as
  integers (seconds); calendar dates and formatted time strings are plain
  strings, compared by equality exactly as the Python code compares them;
* side effects on the output surface (offscreen canvas clear, SetImage,
  SwapOnVSync, DrawText, time.sleep, the platform shutdown call) are
  reified as a trace of operations in the order the code performs them;
* print logging is reified as a trace of log events;
* Python values that may be None are Option values, and Python code that
  would raise on a None operand returns Except.error.
-/

namespace PlaneTracker

/-- Colours used by the clock scene (setup/colours): BLACK erases,
LIGHT_ORANGE is the day colour, LIGHT_BLUE the night colour. -/
inductive Colour where
  | black
  | lightOrange
  | lightBlue
  deriving DecidableEq, Repr

def DAY_COLOUR : Colour := Colour.lightOrange

def NIGHT_COLOUR : Colour := Colour.lightBlue

/-- One side effect on the shared output surface or the platform, in the
order the Python code performs them. -/
inductive Op where
  | clear
  | drawImage
  | commit
  | sleep (seconds : Int)
  | shutdown
  | drawText (colour : Colour) (text : String)
  deriving DecidableEq, Repr

/-- A print-log event: warning, error or info line. -/
inductive LogEvent where
  | warning
  | error
  | info
  deriving DecidableEq, Repr

/-- The processed overlay image (a PIL image centred on a black canvas);
the claims only observe whether one is loaded. -/
inductive LogoImage where
  | img
  deriving DecidableEq, Repr

-- ── Configuration constants (config.py) ─────────────────────────────────

def BRIGHTNESS : Nat := 50

def DIM_BRIGHTNESS : Nat := 15

def DIM_START : Nat := 22

def DIM_END : Nat := 7

def DELTA_LOGO_INTERVAL : Int := 30

def DELTA_LOGO_DURATION : Int := 5

-- ── Brightness and dimming (Display.update_brightness) ──────────────────

/-- The is_dim computation inside Display.update_brightness: with an
overnight window (DIM_START greater than DIM_END) the hour is dim when
hour ge start or hour lt end; otherwise when start le hour lt end. -/
def is_dim (dimStart dimEnd hour : Nat) : Bool :=
  if dimStart > dimEnd then
    decide (hour ≥ dimStart) || decide (hour < dimEnd)
  else
    decide (dimStart ≤ hour) && decide (hour < dimEnd)

/-- The brightness target chosen by Display.update_brightness:
DIM_BRIGHTNESS when is_dim, otherwise BRIGHTNESS. -/
def target_brightness (dimStart dimEnd dimB normB hour : Nat) : Nat :=
  if is_dim dimStart dimEnd hour then dimB else normB

-- ── Overlay state and arbitration (Display delta-logo members) ──────────

/-- The Display fields that drive the delta-logo overlay:
delta_logo_image, showing_logo and _last_logo_time, as initialised and
mutated by display/__init__.py. -/
structure DispState where
  delta_logo_image : Option LogoImage
  showing_logo : Bool
  last_logo_time : Int
  deriving DecidableEq, Repr

/-- Display.should_show_logo: false when the feature is disabled or no
image is loaded; otherwise true exactly when now minus _last_logo_time
has reached DELTA_LOGO_INTERVAL. -/
def should_show_logo (enabled : Bool) (interval : Int)
    (img : Option LogoImage) (lastT now : Int) : Bool :=
  if !enabled || img.isNone then
    false
  else if now - lastT ≥ interval then
    true
  else
    false

/-- Display.show_delta_logo: no-op when no image is loaded; otherwise it
sets showing_logo (cleared again after the hold), records
_last_logo_time = now, then clears the canvas, draws the image, swaps the
frame and sleeps for the configured duration. The returned state is the
state after the call returns; the trace lists the surface operations in
order. -/
def show_delta_logo (duration : Int) (d : DispState) (now : Int) :
    DispState × List Op :=
  match d.delta_logo_image with
  | none => (d, [])
  | some _ =>
      ({ d with showing_logo := false, last_logo_time := now },
       [Op.clear, Op.drawImage, Op.commit, Op.sleep duration])

-- ── Overlay asset loading (Display._load_delta_logo) ────────────────────

/-- What the filesystem and PIL do when _load_delta_logo runs: the file is
absent, Image.open or processing raises, or a usable image is produced. -/
inductive LoadOutcome where
  | fileMissing
  | loadError
  | loaded
  deriving DecidableEq, Repr

/-- Display._load_delta_logo: a missing file prints a warning and leaves
delta_logo_image as None; an exception during load or processing prints an
error and sets it to None; success stores the processed image and prints
an info line. -/
def load_delta_logo (outcome : LoadOutcome) :
    Option LogoImage × List LogEvent :=
  match outcome with
  | LoadOutcome.fileMissing => (none, [LogEvent.warning])
  | LoadOutcome.loadError => (none, [LogEvent.error])
  | LoadOutcome.loaded => (some LogoImage.img, [LogEvent.info])

/-- The delta-logo part of Display.__init__: delta_logo_image starts as
None, showing_logo false, _last_logo_time 0; when DELTA_LOGO_ENABLED the
loader runs exactly once. -/
def display_init_logo (enabled : Bool) (outcome : LoadOutcome) :
    DispState × List LogEvent :=
  let st : DispState :=
    { delta_logo_image := none, showing_logo := false, last_logo_time := 0 }
  if enabled then
    let (img, logs) := load_delta_logo outcome
    ({ st with delta_logo_image := img }, logs)
  else
    (st, [])

-- ── Clock scene (scenes/clock.py) ───────────────────────────────────────

/-- One entry of the forecast collection iterated by
calculate_sunrise_sunset: startDate is day.startTime truncated to the
date, sunriseTime and sunsetTime are the parsed UTC timestamps. -/
structure ForecastDay where
  startDate : String
  sunriseTime : Int
  sunsetTime : Int
  deriving DecidableEq, Repr

/-- Modelled from the spec: grab_forecast (utilities/temperature.py, not
present under src/) polls the weather/astronomy source and returns a
possibly empty collection of daily records; per the spec a fetch failure
is recovered locally, is never surfaced to the render loop, and shows up
to the caller only as a result with no entry for the current date. The
fetch result is therefore passed in as an explicit environment value. -/
def grab_forecast (fetchResult : List ForecastDay) : List ForecastDay :=
  fetchResult

/-- The mutable fields of ClockScene: _last_time, today_sunrise,
today_sunset and last_fetch_date, as initialised in __init__. -/
structure ClockState where
  last_time : Option String
  today_sunrise : Option Int
  today_sunset : Option Int
  last_fetch_date : Option String
  deriving DecidableEq, Repr

/-- ClockScene.__init__ field values. -/
def ClockScene.init : ClockState :=
  { last_time := none, today_sunrise := none, today_sunset := none,
    last_fetch_date := none }

/-- The ambient inputs of one clock keyframe call: the current epoch
second (datetime.utcnow and time.time), the current date string, the
formatted clock string, len of self._data, and what grab_forecast would
return if called now. -/
structure Env where
  now : Int
  today : String
  current_time : String
  dataLen : Nat
  fetchResult : List ForecastDay
  deriving Repr

/-- ClockScene.calculate_sunrise_sunset: when the cached fetch date is not
today it calls grab_forecast and, for every returned day whose date equals
today, overwrites the cached sunrise and sunset and records the fetch
date; it returns the (possibly stale) cached pair. -/
def calculate_sunrise_sunset (fetchResult : List ForecastDay)
    (today : String) (st : ClockState) : ClockState :=
  if st.last_fetch_date ≠ some today then
    (grab_forecast fetchResult).foldl
      (fun acc day =>
        if day.startDate = today then
          { acc with
            today_sunrise := some day.sunriseTime,
            today_sunset := some day.sunsetTime,
            last_fetch_date := some today }
        else acc)
      st
  else st

/-- Python errors the embedded code can raise: subtracting
datetime.utcnow from a cached None raises TypeError, and looking up a
method the object does not define raises AttributeError. -/
inductive PyError where
  | typeError
  | attributeError
  deriving DecidableEq, Repr

/-- The colour selection of ClockScene.clock from the cached UTC sunrise
and sunset: past sunset is night, else past sunrise is day, else (before
dawn) night. -/
def clock_colour (sunrise sunset utcnow : Int) : Colour :=
  if sunset - utcnow ≤ 0 then NIGHT_COLOUR
  else if sunrise - utcnow ≤ 0 then DAY_COLOUR
  else NIGHT_COLOUR

/-- Python truthiness of the Optional string _last_time: None and the
empty string are falsy. -/
def pyTruthy : Option String → Bool
  | none => false
  | some s => !s.isEmpty

/-- The clock-drawing body of the keyframe (ClockScene.clock): with flight
data present it only resets _last_time; otherwise it formats the time,
refreshes the sun cache, subtracts utcnow from the cached timestamps
(TypeError when a cached value is still None), picks the colour, erases
the previous string in black when one exists, records the new string and
draws it. -/
def ClockScene.clock (e : Env) (st : ClockState) :
    Except PyError (ClockState × List Op) :=
  if e.dataLen ≠ 0 then
    Except.ok ({ st with last_time := none }, [])
  else
    let st2 := calculate_sunrise_sunset e.fetchResult e.today st
    match st2.today_sunrise, st2.today_sunset with
    | some sunrise, some sunset =>
        let colour := clock_colour sunrise sunset e.now
        let eraseOps :=
          if pyTruthy st2.last_time then
            [Op.drawText Colour.black (st2.last_time.getD "")]
          else []
        Except.ok ({ st2 with last_time := some e.current_time },
          eraseOps ++ [Op.drawText colour e.current_time])
    | _, _ => Except.error PyError.typeError

/-- ClockScene.draw, the per-second keyframe: it first asks the display
whether the delta logo is due; if so it runs show_delta_logo and returns
without any clock drawing; otherwise it runs the clock body. -/
def ClockScene.draw (enabled : Bool) (interval duration : Int)
    (d : DispState) (e : Env) (st : ClockState) :
    DispState × Except PyError (ClockState × List Op) :=
  if should_show_logo enabled interval d.delta_logo_image
      d.last_logo_time e.now then
    let (d2, ops) := show_delta_logo duration d e.now
    (d2, Except.ok (st, ops))
  else
    (d, ClockScene.clock e st)

-- ── Auto-shutdown scheduler (Display._shutdown_loop) ────────────────────

/-- Python str.split on one separator character, over the character list
of the string: every separator occurrence ends a piece and empty pieces
are kept, exactly as str.split with an explicit separator behaves. -/
def pySplit (sep : Char) : List Char → List (List Char)
  | [] => [[]]
  | c :: rest =>
      match pySplit sep rest with
      | [] => [[]]
      | p :: ps => if c = sep then [] :: p :: ps else (c :: p) :: ps

/-- Model of Python int applied to one piece: optional surrounding
whitespace, an optional sign, then at least one digit. -/
def pyParseIntChars (cs : List Char) : Option Int :=
  let t := ((cs.dropWhile Char.isWhitespace).reverse.dropWhile
    Char.isWhitespace).reverse
  match t with
  | [] => none
  | c :: rest =>
      let neg := c = '-'
      let digits := if c = '-' || c = '+' then rest else c :: rest
      if digits ≠ [] ∧ digits.all Char.isDigit then
        let n : Nat :=
          digits.foldl (fun acc d => 10 * acc + (d.toNat - '0'.toNat)) 0
        some (if neg then -(n : Int) else (n : Int))
      else none

/-- The parse at the top of _shutdown_loop:
map(int, AUTO_SHUTDOWN_TIME.split on colon) unpacked into exactly an hour
and a minute; any other shape or a non-integer part raises ValueError. -/
def parse_shutdown_time (s : String) : Option (Int × Int) :=
  match (pySplit ':' s.data).map pyParseIntChars with
  | [some h, some m] => some (h, m)
  | _ => none

/-- A wall-clock instant as the shutdown loop observes it
(datetime.now): hour, minute, second. Only hour and minute are read. -/
structure WallClock where
  hour : Nat
  minute : Nat
  second : Nat
  deriving DecidableEq, Repr

/-- One iteration of the while-loop body of _shutdown_loop at instant
now with guard shutdown_triggered: when hour and minute match the target
and the guard is clear it prints an info line, clears the canvas, swaps
the frame, sleeps two seconds, issues the platform shutdown and sets the
guard; afterwards the guard is cleared whenever the current minute
differs from the target minute. Returns the new guard with the traces. -/
def shutdown_poll (targetH targetM : Int) (now : WallClock)
    (triggered : Bool) : Bool × List Op × List LogEvent :=
  let (trig1, ops, logs) :=
    if (now.hour : Int) = targetH ∧ (now.minute : Int) = targetM ∧
        triggered = false then
      (true, [Op.clear, Op.commit, Op.sleep 2, Op.shutdown],
       [LogEvent.info])
    else
      (triggered, [], [])
  let trig2 := if (now.minute : Int) ≠ targetM then false else trig1
  (trig2, ops, logs)

/-- The while-loop of _shutdown_loop over the list of wall-clock instants
it would observe: each iteration runs the poll body, sleeps 30 seconds,
and then evaluates self.play(); Display defines no play method, so that
attribute lookup raises AttributeError and the loop (and with it the
daemon thread) dies at the end of its first iteration — later instants
are never observed. An empty instant list stands for a loop that was
never scheduled to observe the clock. -/
def shutdown_run (targetH targetM : Int) (triggered : Bool)
    (polls : List WallClock) : List Op × List LogEvent × Option PyError :=
  match polls with
  | [] => ([], [], none)
  | now :: _ =>
      let (_, ops, logs) := shutdown_poll targetH targetM now triggered
      (ops ++ [Op.sleep 30], logs, some PyError.attributeError)

/-- Display._shutdown_loop: parse the configured time; on ValueError print
one error line and return normally without touching the surface;
otherwise start with a clear guard and enter the poll loop. The third
component is the exception, if any, that escapes and kills the thread. -/
def shutdown_loop (timeStr : String) (polls : List WallClock) :
    List Op × List LogEvent × Option PyError :=
  match parse_shutdown_time timeStr with
  | none => ([], [LogEvent.error], none)
  | some (h, m) => shutdown_run h m false polls

-- ── Theorems ────────────────────────────────────────────────────────────

/-- Claim C3: for every instant now, should_show_logo returns true if and
only if the overlay feature is enabled, an overlay asset is loaded
(delta_logo_image is not None), and now minus _last_logo_time is at least
the configured interval. -/
theorem should_show_logo_iff (enabled : Bool) (interval : Int)
    (img : Option LogoImage) (lastT now : Int) :
    should_show_logo enabled interval img lastT now = true ↔
      enabled = true ∧ img.isSome = true ∧ now - lastT ≥ interval := by
  cases enabled with
  | false => simp [should_show_logo]
  | true =>
    cases img with
    | none => simp [should_show_logo]
    | some i =>
      simp only [should_show_logo, Option.isNone, Option.isSome,
        Bool.not_true, Bool.false_or]
      split <;> simp_all

/-- Claim C4: for every hour below 24, the brightness target is the dim
value exactly when the hour lies in the configured window: with a
wrapping window (start greater than end) when hour ge start or hour lt
end, with a non-wrapping window when start le hour lt end; in particular
for the windows 22 to 7 and 9 to 17. -/
theorem target_brightness_windows (s e dimB normB h : Nat)
    (hh : h < 24) (hne : dimB ≠ normB) :
    (s > e →
      (target_brightness s e dimB normB h = dimB ↔ (h ≥ s ∨ h < e))) ∧
    (s ≤ e →
      (target_brightness s e dimB normB h = dimB ↔ (s ≤ h ∧ h < e))) ∧
    (target_brightness 22 7 dimB normB h = dimB ↔ (h ≥ 22 ∨ h < 7)) ∧
    (target_brightness 9 17 dimB normB h = dimB ↔ (9 ≤ h ∧ h < 17)) := by
  have key : ∀ a b : Nat,
      target_brightness a b dimB normB h = dimB ↔ is_dim a b h = true := by
    intro a b
    unfold target_brightness
    split <;> simp_all <;> omega
  have hdim : ∀ a b : Nat,
      is_dim a b h = true ↔
        (if a > b then (h ≥ a ∨ h < b) else (a ≤ h ∧ h < b)) := by
    intro a b
    unfold is_dim
    split <;> simp
  refine ⟨?_, ?_, ?_, ?_⟩
  · intro hgt
    rw [key, hdim, if_pos hgt]
  · intro hle
    rw [key, hdim, if_neg (by omega)]
  · rw [key, hdim, if_pos (by omega)]
  · rw [key, hdim, if_neg (by omega)]

/-- Claim C4 witness: hour 23 with the overnight window 22 to 7 and the
configured brightness pair dims the display. -/
theorem target_brightness_windows_witness :
    target_brightness 22 7 DIM_BRIGHTNESS BRIGHTNESS 23 = DIM_BRIGHTNESS :=
  ((target_brightness_windows 22 7 DIM_BRIGHTNESS BRIGHTNESS 23
    (by decide) (by decide)).2.2.1).mpr (by decide)

/-- Claim C1: the multi-poll guard discipline the claim describes is not
program behaviour. In the run 23:30:00 then 23:30:15 against target 23:30
with a clear guard, the first iteration fires the shutdown sequence, but
the iteration then ends with time.sleep(30) and self.play(); Display has
no play method, so AttributeError escapes and kills the scheduler thread
before the 23:30:15 instant — or any later instant — is ever polled, so
no second check, no guard reset at 23:31 and no next-day re-fire can
occur. -/
theorem shutdown_thread_dies_after_first_poll :
    shutdown_run 23 30 false [⟨23, 30, 0⟩, ⟨23, 30, 15⟩] =
      ([Op.clear, Op.commit, Op.sleep 2, Op.shutdown, Op.sleep 30],
       [LogEvent.info], some PyError.attributeError) := by
  decide

/-- Claim C9: a configured time string that does not parse as exactly two
colon-separated integers makes the shutdown loop print one error line and
return at once: over any sequence of polls it performs no surface or
platform operation at all. -/
theorem malformed_shutdown_time_disables (s : String)
    (polls : List WallClock) (hbad : parse_shutdown_time s = none) :
    shutdown_loop s polls = ([], [LogEvent.error], none) := by
  simp [shutdown_loop, hbad]

/-- Claim C9 witness: the unparsable string banana disables the scheduler
even across a poll at the configured default time. -/
theorem malformed_shutdown_time_disables_witness :
    shutdown_loop "banana" [⟨23, 30, 0⟩] = ([], [LogEvent.error], none) :=
  malformed_shutdown_time_disables "banana" [⟨23, 30, 0⟩] rfl

/-- Claim C2 counterexample: with the configured interval 30 and the
overlay enabled with its asset loaded, the first-ever call of
should_show_logo at clock value 0 returns false, because _last_logo_time
is initialised to 0 and 0 - 0 is below the interval; the claim says this
first call returns true. -/
theorem overlay_first_call_at_zero_counterexample :
    should_show_logo true DELTA_LOGO_INTERVAL
      (display_init_logo true LoadOutcome.loaded).1.delta_logo_image
      (display_init_logo true LoadOutcome.loaded).1.last_logo_time 0 =
      false := by
  decide

/-- Claim C2 (amended): with interval 30 and duration 5, overlay enabled
and asset loaded, a first-ever call at any clock value t0 that is at
least the interval (every realistic epoch time) returns true;
show_delta_logo then records _last_logo_time = t0, after which a call at
t0 + 10 returns false and a call at t0 + 31 returns true. -/
theorem overlay_cycle_from_start (t0 : Int) (d0 : DispState)
    (hd : d0 = (display_init_logo true LoadOutcome.loaded).1)
    (ht : t0 ≥ DELTA_LOGO_INTERVAL) :
    should_show_logo true DELTA_LOGO_INTERVAL d0.delta_logo_image
      d0.last_logo_time t0 = true ∧
    (show_delta_logo DELTA_LOGO_DURATION d0 t0).1.last_logo_time = t0 ∧
    should_show_logo true DELTA_LOGO_INTERVAL
      (show_delta_logo DELTA_LOGO_DURATION d0 t0).1.delta_logo_image
      (show_delta_logo DELTA_LOGO_DURATION d0 t0).1.last_logo_time
      (t0 + 10) = false ∧
    should_show_logo true DELTA_LOGO_INTERVAL
      (show_delta_logo DELTA_LOGO_DURATION d0 t0).1.delta_logo_image
      (show_delta_logo DELTA_LOGO_DURATION d0 t0).1.last_logo_time
      (t0 + 31) = true := by
  subst hd
  have ht30 : (30 : Int) ≤ t0 := ht
  refine ⟨?_, ?_, ?_, ?_⟩ <;>
    simp [display_init_logo, load_delta_logo, show_delta_logo,
      should_show_logo, DELTA_LOGO_INTERVAL, DELTA_LOGO_DURATION] <;>
    omega

/-- Claim C2 witness: the amended cycle evaluated with the first call at
clock value 100. -/
theorem overlay_cycle_from_start_witness :
    should_show_logo true DELTA_LOGO_INTERVAL
      (show_delta_logo DELTA_LOGO_DURATION
        (display_init_logo true LoadOutcome.loaded).1 100).1.delta_logo_image
      (show_delta_logo DELTA_LOGO_DURATION
        (display_init_logo true LoadOutcome.loaded).1 100).1.last_logo_time
      131 = true :=
  (overlay_cycle_from_start 100
    (display_init_logo true LoadOutcome.loaded).1 rfl (by decide)).2.2.2

/-- Claim C5: when the overlay preempts a tick of the clock keyframe, the
surface operations are exactly clear, draw the overlay image, commit
once, then the hold sleep for the configured duration; the clock state is
returned untouched and no text drawing happens on that tick. -/
theorem overlay_preemption_op_order (enabled : Bool)
    (interval duration : Int) (d : DispState) (e : Env) (st : ClockState)
    (i : LogoImage) (himg : d.delta_logo_image = some i)
    (hpre : should_show_logo enabled interval d.delta_logo_image
      d.last_logo_time e.now = true) :
    ClockScene.draw enabled interval duration d e st =
      ({ d with showing_logo := false, last_logo_time := e.now },
       Except.ok (st,
         [Op.clear, Op.drawImage, Op.commit, Op.sleep duration])) ∧
    (∀ c s, Op.drawText c s ∉
      [Op.clear, Op.drawImage, Op.commit, Op.sleep duration]) := by
  constructor
  · have hpre2 : should_show_logo enabled interval (some i)
        d.last_logo_time e.now = true := himg ▸ hpre
    simp [ClockScene.draw, himg, hpre2, show_delta_logo]
  · intro c s
    simp

/-- Claim C5 witness: the preempted tick evaluated at concrete inputs. -/
theorem overlay_preemption_op_order_witness :
    ClockScene.draw true 30 5
      ⟨some LogoImage.img, false, 0⟩
      ⟨100, "2026-10-12", "12:00", 0, []⟩ ClockScene.init =
      (⟨some LogoImage.img, false, 100⟩,
       Except.ok (ClockScene.init,
         [Op.clear, Op.drawImage, Op.commit, Op.sleep 5])) :=
  (overlay_preemption_op_order true 30 5
    ⟨some LogoImage.img, false, 0⟩
    ⟨100, "2026-10-12", "12:00", 0, []⟩ ClockScene.init
    LogoImage.img rfl (by decide)).1

/-- Claim C6: the clock body erases a previously drawn time string by
redrawing it in black at the same position before drawing the new one;
with no previous value it draws fresh with no erase; and a tick with
flight data present resets the previous value to none and draws
nothing. -/
theorem clock_differential_redraw (e : Env) (st : ClockState)
    (sr ss : Int) (hdata : e.dataLen = 0)
    (hsr : st.today_sunrise = some sr) (hss : st.today_sunset = some ss)
    (hdate : st.last_fetch_date = some e.today) :
    (∀ prev, st.last_time = some prev → prev ≠ "" →
      ClockScene.clock e st =
        Except.ok ({ st with last_time := some e.current_time },
          [Op.drawText Colour.black prev,
           Op.drawText (clock_colour sr ss e.now) e.current_time])) ∧
    (st.last_time = none →
      ClockScene.clock e st =
        Except.ok ({ st with last_time := some e.current_time },
          [Op.drawText (clock_colour sr ss e.now) e.current_time])) ∧
    (∀ e2 : Env, ∀ st2 : ClockState, e2.dataLen ≠ 0 →
      ClockScene.clock e2 st2 =
        Except.ok ({ st2 with last_time := none }, [])) := by
  have hcalc : calculate_sunrise_sunset e.fetchResult e.today st = st := by
    simp [calculate_sunrise_sunset, hdate]
  refine ⟨?_, ?_, ?_⟩
  · intro prev hprev hne
    have hpe : prev.isEmpty = false := by
      cases hc : prev.isEmpty
      · rfl
      · exact absurd ((String.isEmpty_iff prev).mp hc) hne
    simp [ClockScene.clock, hdata, hcalc, hsr, hss, hprev, pyTruthy, hpe]
  · intro hprev
    simp [ClockScene.clock, hdata, hcalc, hsr, hss, hprev, pyTruthy]
  · intro e2 st2 h2
    simp [ClockScene.clock, h2]

/-- Claim C6 witness: the erase-then-draw pair evaluated at concrete
inputs with a cached previous string. -/
theorem clock_differential_redraw_witness :
    ClockScene.clock
      ⟨100, "2026-10-12", "12:00", 0, []⟩
      ⟨some "11:59", some 50, some 200, some "2026-10-12"⟩ =
      Except.ok
        (⟨some "12:00", some 50, some 200, some "2026-10-12"⟩,
         [Op.drawText Colour.black "11:59",
          Op.drawText (clock_colour 50 200 100) "12:00"]) :=
  (clock_differential_redraw
    ⟨100, "2026-10-12", "12:00", 0, []⟩
    ⟨some "11:59", some 50, some 200, some "2026-10-12"⟩
    50 200 rfl rfl rfl rfl).1 "11:59" rfl (by decide)

/-- Folding the sun-cache update over entries none of which carry the
current date leaves the state unchanged. -/
theorem sun_cache_foldl_no_match (today : String) (l : List ForecastDay) :
    ∀ st : ClockState, (∀ day ∈ l, day.startDate ≠ today) →
    l.foldl
      (fun acc day =>
        if day.startDate = today then
          { acc with
            today_sunrise := some day.sunriseTime,
            today_sunset := some day.sunsetTime,
            last_fetch_date := some today }
        else acc)
      st = st := by
  induction l with
  | nil =>
      intro st _
      rfl
  | cons day rest ih =>
      intro st hnone
      have hday : day.startDate ≠ today :=
        hnone day (List.mem_cons_self day rest)
      simp only [List.foldl_cons, if_neg hday]
      exact ih st (fun d hd => hnone d (List.mem_cons_of_mem day hd))

/-- A fetch result with no entry for the current date leaves the clock
scene cache untouched. -/
theorem calculate_no_match_keeps_cache (fetchResult : List ForecastDay)
    (today : String) (st : ClockState)
    (hnone : ∀ day ∈ fetchResult, day.startDate ≠ today) :
    calculate_sunrise_sunset fetchResult today st = st := by
  unfold calculate_sunrise_sunset grab_forecast
  split
  · exact sun_cache_foldl_no_match today fetchResult st hnone
  · rfl

/-- Claim C7: when the fetch returns no entry for the current date (the
local recovery shape of a failed fetch), a clock tick with cached
sunrise and sunset values completes normally, keeps the cached pair, and
colours the time from the cached values instead of raising. -/
theorem clock_fetch_failure_uses_cache (e : Env) (st : ClockState)
    (sr ss : Int) (hdata : e.dataLen = 0)
    (hfail : ∀ day ∈ e.fetchResult, day.startDate ≠ e.today)
    (hsr : st.today_sunrise = some sr) (hss : st.today_sunset = some ss) :
    ClockScene.clock e st =
      Except.ok ({ st with last_time := some e.current_time },
        (if pyTruthy st.last_time then
          [Op.drawText Colour.black (st.last_time.getD "")]
         else []) ++
        [Op.drawText (clock_colour sr ss e.now) e.current_time]) := by
  have hcalc := calculate_no_match_keeps_cache e.fetchResult e.today st hfail
  simp [ClockScene.clock, hdata, hcalc, hsr, hss]

/-- Claim C7 witness: a stale-date fetch result with no entry for today,
against a populated cache, completes and reuses the cache. -/
theorem clock_fetch_failure_uses_cache_witness :
    ClockScene.clock
      ⟨100, "2026-10-12", "12:00", 0, [⟨"2026-10-11", 1, 2⟩]⟩
      ⟨some "11:59", some 50, some 200, some "2026-10-11"⟩ =
      Except.ok
        (⟨some "12:00", some 50, some 200, some "2026-10-11"⟩,
         [Op.drawText Colour.black "11:59",
          Op.drawText (clock_colour 50 200 100) "12:00"]) := by
  have h := clock_fetch_failure_uses_cache
    ⟨100, "2026-10-12", "12:00", 0, [⟨"2026-10-11", 1, 2⟩]⟩
    ⟨some "11:59", some 50, some 200, some "2026-10-11"⟩
    50 200 rfl (by decide) rfl rfl
  simpa [pyTruthy] using h

/-- Claim C8: when the overlay asset is missing or fails to load at
startup, delta_logo_image is None, exactly one line is logged, every
later should_show_logo call returns false whatever the instant, and no
later clock keyframe ever changes delta_logo_image away from None. -/
theorem asset_load_failure_disables_overlay (outcome : LoadOutcome)
    (hfail : outcome ≠ LoadOutcome.loaded) :
    (display_init_logo true outcome).1.delta_logo_image = none ∧
    (display_init_logo true outcome).2.length = 1 ∧
    (∀ enabled : Bool, ∀ interval lastT now : Int,
      should_show_logo enabled interval none lastT now = false) ∧
    (∀ enabled : Bool, ∀ interval duration : Int, ∀ d : DispState,
      ∀ e : Env, ∀ st : ClockState, d.delta_logo_image = none →
      (ClockScene.draw enabled interval duration d e st).1.delta_logo_image
        = none) := by
  refine ⟨?_, ?_, ?_, ?_⟩
  · cases outcome <;> simp_all [display_init_logo, load_delta_logo]
  · cases outcome <;> simp_all [display_init_logo, load_delta_logo]
  · intro enabled interval lastT now
    cases enabled <;> simp [should_show_logo]
  · intro enabled interval duration d e st himg
    have hfalse : should_show_logo enabled interval none
        d.last_logo_time e.now = false := by
      cases enabled <;> simp [should_show_logo]
    simp [ClockScene.draw, himg, hfalse]

/-- Claim C8 witness: a missing file leaves the overlay disabled. -/
theorem asset_load_failure_disables_overlay_witness :
    (display_init_logo true LoadOutcome.fileMissing).1.delta_logo_image
      = none :=
  (asset_load_failure_disables_overlay LoadOutcome.fileMissing
    (by decide)).1

/-- Claim C10: with cached sunrise and sunset, the clock tick draws its
text in the colour chosen by clock_colour, and that colour is the night
colour at or past sunset, the day colour at or past sunrise but before
sunset, and the night colour before both. -/
theorem clock_colour_day_night (e : Env) (st : ClockState) (sr ss : Int)
    (hdata : e.dataLen = 0)
    (hsr : st.today_sunrise = some sr) (hss : st.today_sunset = some ss)
    (hdate : st.last_fetch_date = some e.today) :
    (ClockScene.clock e st =
      Except.ok ({ st with last_time := some e.current_time },
        (if pyTruthy st.last_time then
          [Op.drawText Colour.black (st.last_time.getD "")]
         else []) ++
        [Op.drawText (clock_colour sr ss e.now) e.current_time])) ∧
    (ss ≤ e.now → clock_colour sr ss e.now = NIGHT_COLOUR) ∧
    (sr ≤ e.now → e.now < ss → clock_colour sr ss e.now = DAY_COLOUR) ∧
    (e.now < sr → e.now < ss → clock_colour sr ss e.now = NIGHT_COLOUR)
    := by
  have hcalc : calculate_sunrise_sunset e.fetchResult e.today st = st := by
    simp [calculate_sunrise_sunset, hdate]
  refine ⟨?_, ?_, ?_, ?_⟩
  · simp [ClockScene.clock, hdata, hcalc, hsr, hss]
  · intro h1
    rw [clock_colour, if_pos (show ss - e.now ≤ 0 by omega)]
  · intro h1 h2
    rw [clock_colour, if_neg (by omega), if_pos (by omega)]
  · intro h1 h2
    rw [clock_colour, if_neg (by omega), if_neg (by omega)]

/-- Claim C10 witness: a tick past sunset draws the time in the night
colour. -/
theorem clock_colour_day_night_witness :
    clock_colour 50 200 300 = NIGHT_COLOUR :=
  (clock_colour_day_night
    ⟨300, "2026-10-12", "12:00", 0, []⟩
    ⟨none, some 50, some 200, some "2026-10-12"⟩
    50 200 rfl rfl rfl rfl).2.1 (by decide)

end PlaneTracker
